import Mathlib

/-!
Verification development for `inst/python/RadarCorrection.py`: a shallow
embedding of the orchestration script that locates a Sentinel-1 product
manifest, derives identity fields from the product directory basename, and
invokes the external engine once per polarization, writing one output file
each.  Engine calls are modelled as opaque events in a trace; the filesystem
is modelled by an oracle answering the single `isfile` query the script makes.
-/

namespace RadarCorrection

/-- Python slice `s[a:b]` for `0 ≤ a ≤ b` (the only form the script uses):
indices clamp to the string length, never raising. -/
def pySlice (s : String) (a b : Nat) : String :=
  String.mk ((s.data.drop a).take (b - a))

/-- `os.path.join(a, b)` (posix): `b` if `b` is absolute, else `a + b` when
`a` is empty or already ends with the separator, else `a + '/' + b`. -/
def osPathJoin (a b : String) : String :=
  if b.data.head? = some '/' then b
  else if a = "" ∨ a.data.getLast? = some '/' then a ++ b
  else a ++ "/" ++ b

/-- `os.path.basename(p)` (posix): the suffix after the last slash. -/
def osPathBasename (p : String) : String :=
  String.mk ((p.data.reverse.takeWhile (fun c => c ≠ '/')).reverse)

/-- `sat = filename[:3]` -/
def satOf (filename : String) : String := pySlice filename 0 3

/-- `typen = filename[7:11]` -/
def typenOf (filename : String) : String := pySlice filename 7 11

/-- `daten = filename[17:25]` (raw date substring, before parsing) -/
def datenRawOf (filename : String) : String := pySlice filename 17 25

/-- `%Y` of CPython strptime: exactly four digits. -/
def parseYear4 : List Char → Option (Nat × List Char)
  | c1 :: c2 :: c3 :: c4 :: rest =>
    if c1.isDigit ∧ c2.isDigit ∧ c3.isDigit ∧ c4.isDigit then
      some ((((c1.toNat - 48) * 10 + (c2.toNat - 48)) * 10 + (c3.toNat - 48)) * 10
              + (c4.toNat - 48), rest)
    else none
  | _ => none

/-- One digit `[1-9]`, the last alternative of CPython's `%m` and `%d` patterns. -/
def parseDigit19 : List Char → Option (Nat × List Char)
  | c :: rest => if '1' ≤ c ∧ c ≤ '9' then some (c.toNat - 48, rest) else none
  | [] => none

/-- `%m` of CPython strptime, the pattern `1[0-2]|0[1-9]|[1-9]`: all the
ways the month alternation can match a prefix, in the alternation's priority
order.  The `re` engine backtracks, so a two-digit month that later makes the
day pattern fail is retried as the one-digit `[1-9]` match; the alternatives
`1[0-2]` and `0[1-9]` exclude each other, and `[1-9]` cannot match a leading
`0`, so at most two candidates exist. -/
def monthCandidates (l : List Char) : List (Nat × List Char) :=
  match l with
  | c1 :: c2 :: rest =>
    if c1 = '1' ∧ '0' ≤ c2 ∧ c2 ≤ '2' then [(10 + (c2.toNat - 48), rest), (1, c2 :: rest)]
    else if c1 = '0' ∧ '1' ≤ c2 ∧ c2 ≤ '9' then [(c2.toNat - 48, rest)]
    else match parseDigit19 (c1 :: c2 :: rest) with
      | some mr => [mr]
      | none => []
  | l1 =>
    match parseDigit19 l1 with
    | some mr => [mr]
    | none => []

/-- `%d` of CPython strptime, the pattern `3[01]|[12]\d|0[1-9]|[1-9]` with its
alternation order. -/
def parseDay (l : List Char) : Option (Nat × List Char) :=
  match l with
  | c1 :: c2 :: rest =>
    if c1 = '3' ∧ (c2 = '0' ∨ c2 = '1') then some (30 + (c2.toNat - 48), rest)
    else if (c1 = '1' ∨ c1 = '2') ∧ c2.isDigit then
      some ((c1.toNat - 48) * 10 + (c2.toNat - 48), rest)
    else if c1 = '0' ∧ '1' ≤ c2 ∧ c2 ≤ '9' then some (c2.toNat - 48, rest)
    else parseDigit19 (c1 :: c2 :: rest)
  | l1 => parseDigit19 l1

def isLeapYear (y : Nat) : Bool :=
  y % 4 == 0 && (y % 100 != 0 || y % 400 == 0)

def daysInMonth (y m : Nat) : Nat :=
  if m = 2 then (if isLeapYear y then 29 else 28)
  else if m = 4 ∨ m = 6 ∨ m = 9 ∨ m = 11 then 30
  else 31

/-- The backtracking step of the regex: the first month candidate (in
priority order) whose remainder also matches the day pattern.  The day is the
last pattern element, so its own first-priority match is final: leftover
input or an invalid calendar date is checked afterwards and never re-enters
the regex. -/
def firstDayMatch : List (Nat × List Char) → Option (Nat × Nat × List Char)
  | [] => none
  | (m, r) :: rest =>
    match parseDay r with
    | some (d, r2) => some (m, d, r2)
    | none => firstDayMatch rest

/-- `datetime.strptime(s, '%Y%m%d')`: CPython compiles the format to the
regex `(\d{4})(1[0-2]|0[1-9]|[1-9])(3[01]|[12]\d|0[1-9]|[1-9])`, matches a
prefix with backtracking, then raises on unconverted trailing data and on the
`datetime` constructor checks (`MINYEAR ≤ year`, day fits the month).  Digits
are modelled as ASCII `[0-9]`; CPython's `\d` also matches non-ASCII Unicode
decimal digits, which cannot occur in SAFE directory names, so claims that
rest on a parse failing carry an `asciiOnly` side condition. -/
def strptimeYmd (s : String) : Option (Nat × Nat × Nat) :=
  match parseYear4 s.data with
  | none => none
  | some (y, r1) =>
    match firstDayMatch (monthCandidates r1) with
    | none => none
    | some (m, d, r3) =>
      if r3 = [] ∧ 1 ≤ y ∧ d ≤ daysInMonth y m then some (y, m, d) else none

/-- All characters of `s` are ASCII: on such strings the parse model above
agrees exactly with CPython strptime. -/
def asciiOnly (s : String) : Prop := ∀ c ∈ s.data, c.toNat < 128

instance (s : String) : Decidable (asciiOnly s) :=
  decidable_of_iff (∀ c ∈ s.data, c.toNat < 128) Iff.rfl

/-- Ordinal day of the year of `(y, m, d)`. -/
def dayOfYear (y m d : Nat) : Nat :=
  (List.range (m - 1)).foldl (fun acc i => acc + daysInMonth y (i + 1)) 0 + d

/-- Zero-pad to three digits, as `%j` does. -/
def pad3 (n : Nat) : String :=
  if n < 10 then "00" ++ toString n
  else if n < 100 then "0" ++ toString n
  else toString n

/-- `daten.strftime('%Y%j')`. -/
def strftimeYj (ymd : Nat × Nat × Nat) : String :=
  toString ymd.1 ++ pad3 (dayOfYear ymd.1 ymd.2.1 ymd.2.2)

/-- The day-of-year string the script derives from a basename, when the date
substring parses. -/
def acquisitionDayOfYear (filename : String) : Option String :=
  (strptimeYmd (datenRawOf filename)).map strftimeYj

/-- The `parameters` HashMap built per polarization, as an association list in
`put` order. -/
def correctionParameters (p : String) : List (String × String) :=
  [("imgResamplingMethod", "BILINEAR_INTERPOLATION"),
   ("sourceBands", "Amplitude_" ++ p),
   ("mapProjection", "AUTO:42001")]

/-- `terrain = outdirname + "/" + sat + "_" + typen + "_" + daten +
"_projected_Amplitude_" + polarization` -/
def terrainPath (outdirname sat typen daten polarization : String) : String :=
  outdirname ++ "/" ++ sat ++ "_" ++ typen ++ "_" ++ daten
    ++ "_projected_Amplitude_" ++ polarization

/-- Externally observable actions of one run, in program order.  `gcCollect`
is in the vocabulary so that its absence from every trace is statable; the
script imports `gc` but the embedding, like the script, never emits it. -/
inductive Event where
  | printOut (s : String)
  | sysPathAppend (p : String)
  | importEngine
  | chdir (p : String)
  | readProduct (path : String)
  | createProduct (op : String) (params : List (String × String))
  | writeProduct (path : String) (fmt : String)
  | gcCollect
  deriving DecidableEq, Repr

/-- How a run ends: `finished` is the normal exit after `print("finished")`;
the error constructors are the unhandled Python exceptions the script can
raise itself (argument indexing, the unbound `filename` in the else branch,
strptime on a malformed date). -/
inductive Outcome where
  | finished
  | indexError (argIndex : Nat)
  | nameError (name : String)
  | valueError (badDate : String)
  deriving DecidableEq, Repr

/-- One iteration of `for p in pols`: build the parameters, create the
Ellipsoid-Correction-GG product from `sentinel_1`, write it as BEAM-DIMAP. -/
def polBody (outdirname sat typen daten p : String) : List Event :=
  [Event.createProduct "Ellipsoid-Correction-GG" (correctionParameters p),
   Event.writeProduct (terrainPath outdirname sat typen daten p) "BEAM-DIMAP"]

/-- The whole script, from `sys.argv` access to the final print.  `argv`
includes the script name at index 0; `isFile` answers `os.path.isfile`.
Engine calls (`readProduct`, `createProduct`, `writeProduct`) are opaque and
assumed not to fail, as they belong to the external collaborator. -/
def run (argv : List String) (isFile : String → Bool) : List Event × Outcome :=
  match argv[1]? with
  | none => ([], Outcome.indexError 1)
  | some snapydir =>
  let e1 := [Event.printOut ("Snap Dir: " ++ snapydir)]
  match argv[2]? with
  | none => (e1, Outcome.indexError 2)
  | some imagedir =>
  let e2 := e1 ++ [Event.printOut ("Image Dir: " ++ imagedir)]
  match argv[3]? with
  | none => (e2, Outcome.indexError 3)
  | some outdirname =>
  let e3 := e2 ++ [Event.printOut ("Output Dir: " ++ outdirname)]
  match argv[4]? with
  | none => (e3, Outcome.indexError 4)
  | some orchdir =>
  let e4 := e3 ++ [Event.printOut ("Working Dir: " ++ orchdir),
                   Event.sysPathAppend snapydir, Event.importEngine,
                   Event.chdir orchdir]
  let manifestpath := osPathJoin imagedir "manifest.safe"
  if isFile manifestpath then
    let filename := osPathBasename imagedir
    let e5 := e4 ++ [Event.printOut ("Manifest found!   " ++ filename),
                     Event.readProduct manifestpath]
    match strptimeYmd (datenRawOf filename) with
    | none => (e5, Outcome.valueError (datenRawOf filename))
    | some ymd =>
      let daten := strftimeYj ymd
      let pols := ["VH", "VV"]
      let e6 := pols.foldl
        (fun acc p => acc ++ polBody outdirname (satOf filename) (typenOf filename) daten p) e5
      (e6 ++ [Event.printOut "finished"], Outcome.finished)
  else
    -- `filename` is assigned only inside the then-branch; the else-branch
    -- print dereferences it unbound, so the script dies with a NameError
    -- before printing anything further.
    (e4, Outcome.nameError "filename")

/-- Console lines of a trace, in order. -/
def printsOf (t : List Event) : List String :=
  t.filterMap (fun e => match e with | Event.printOut s => some s | _ => none)

/-- Product writes of a trace, in order: (path, format). -/
def writesOf (t : List Event) : List (String × String) :=
  t.filterMap (fun e => match e with | Event.writeProduct p f => some (p, f) | _ => none)

/-- Operator invocations of a trace, in order: (operator name, parameters). -/
def createsOf (t : List Event) : List (String × List (String × String)) :=
  t.filterMap (fun e => match e with | Event.createProduct o ps => some (o, ps) | _ => none)

/-! ### Helper lemmas -/

theorem pySlice_append (p r : String) (a b : Nat) (h : b ≤ p.length) :
    pySlice (p ++ r) a b = pySlice p a b := by
  unfold pySlice
  rcases le_or_lt a p.length with ha | ha
  · rw [String.data_append, List.drop_append_of_le_length ha,
        List.take_append_of_le_length]
    simpa using Nat.sub_le_sub_right h a
  · have hb : b - a = 0 :=
      Nat.sub_eq_zero_of_le (Nat.le_of_lt (Nat.lt_of_le_of_lt h ha))
    simp [hb]

theorem pySlice_length (s : String) (a b : Nat) :
    (pySlice s a b).length = min (b - a) (s.length - a) := by
  show ((s.data.drop a).take (b - a)).length = min (b - a) (s.data.length - a)
  rw [List.length_take, List.length_drop]

theorem run_eq_absent (x s i o w : String) (r : List String) (isFile : String → Bool)
    (h : isFile (osPathJoin i "manifest.safe") = false) :
    run (x :: s :: i :: o :: w :: r) isFile =
      ([Event.printOut ("Snap Dir: " ++ s), Event.printOut ("Image Dir: " ++ i),
        Event.printOut ("Output Dir: " ++ o), Event.printOut ("Working Dir: " ++ w),
        Event.sysPathAppend s, Event.importEngine, Event.chdir w],
       Outcome.nameError "filename") := by
  simp [run, h]

theorem run_eq_badDate (x s i o w : String) (r : List String) (isFile : String → Bool)
    (hf : isFile (osPathJoin i "manifest.safe") = true)
    (hp : strptimeYmd (datenRawOf (osPathBasename i)) = none) :
    run (x :: s :: i :: o :: w :: r) isFile =
      ([Event.printOut ("Snap Dir: " ++ s), Event.printOut ("Image Dir: " ++ i),
        Event.printOut ("Output Dir: " ++ o), Event.printOut ("Working Dir: " ++ w),
        Event.sysPathAppend s, Event.importEngine, Event.chdir w,
        Event.printOut ("Manifest found!   " ++ osPathBasename i),
        Event.readProduct (osPathJoin i "manifest.safe")],
       Outcome.valueError (datenRawOf (osPathBasename i))) := by
  simp [run, hf, hp]

theorem run_eq_found (x s i o w : String) (r : List String) (isFile : String → Bool)
    (ymd : Nat × Nat × Nat)
    (hf : isFile (osPathJoin i "manifest.safe") = true)
    (hp : strptimeYmd (datenRawOf (osPathBasename i)) = some ymd) :
    run (x :: s :: i :: o :: w :: r) isFile =
      ([Event.printOut ("Snap Dir: " ++ s), Event.printOut ("Image Dir: " ++ i),
        Event.printOut ("Output Dir: " ++ o), Event.printOut ("Working Dir: " ++ w),
        Event.sysPathAppend s, Event.importEngine, Event.chdir w,
        Event.printOut ("Manifest found!   " ++ osPathBasename i),
        Event.readProduct (osPathJoin i "manifest.safe")]
        ++ polBody o (satOf (osPathBasename i)) (typenOf (osPathBasename i)) (strftimeYj ymd) "VH"
        ++ polBody o (satOf (osPathBasename i)) (typenOf (osPathBasename i)) (strftimeYj ymd) "VV"
        ++ [Event.printOut "finished"],
       Outcome.finished) := by
  simp [run, hf, hp]

/-! ### Claim theorems -/

theorem terrainPath_eq (od s t d p : String) :
    terrainPath od s t d p
      = od ++ ("/" ++ (s ++ ("_" ++ (t ++ ("_" ++ (d ++ ("_projected_Amplitude_" ++ p))))))) := by
  simp [terrainPath, String.append_assoc]

/-- C1: the claim fails on the code.  With `manifest.safe` absent the script
does not report the "manifest not found" diagnostic and does not end
normally: the else branch dereferences the never-assigned `filename`, so the
run dies with a NameError, printing neither the diagnostic nor "finished". -/
theorem manifest_absent_dies_with_nameError :
    (run ["RadarCorrection.py", "/opt/snap", "/data/S1A_PROD", "/out", "/work"]
        (fun _ => false)).2 = Outcome.nameError "filename" ∧
    "Manifest not found for S1A_PROD" ∉
      printsOf (run ["RadarCorrection.py", "/opt/snap", "/data/S1A_PROD", "/out", "/work"]
        (fun _ => false)).1 ∧
    "finished" ∉
      printsOf (run ["RadarCorrection.py", "/opt/snap", "/data/S1A_PROD", "/out", "/work"]
        (fun _ => false)).1 := by
  decide

/-- C2: a basename beginning `S1A_IW_GRDH_1SDV_20200615T` yields
satelliteCode "S1A", productType "GRDH", acquisition day-of-year "2020167",
and the two output paths `<outputDir>/S1A_GRDH_2020167_projected_Amplitude_VH`
and `..._VV`. -/
theorem identity_of_S1A_20200615 (outputDir fn : String)
    (h : ∃ rest, fn = "S1A_IW_GRDH_1SDV_20200615T" ++ rest) :
    satOf fn = "S1A" ∧ typenOf fn = "GRDH" ∧
    acquisitionDayOfYear fn = some "2020167" ∧
    terrainPath outputDir (satOf fn) (typenOf fn) "2020167" "VH"
      = outputDir ++ "/S1A_GRDH_2020167_projected_Amplitude_VH" ∧
    terrainPath outputDir (satOf fn) (typenOf fn) "2020167" "VV"
      = outputDir ++ "/S1A_GRDH_2020167_projected_Amplitude_VV" := by
  obtain ⟨rest, rfl⟩ := h
  have hsat : satOf ("S1A_IW_GRDH_1SDV_20200615T" ++ rest) = "S1A" := by
    unfold satOf
    rw [pySlice_append _ _ _ _ (by decide)]
    decide
  have htyp : typenOf ("S1A_IW_GRDH_1SDV_20200615T" ++ rest) = "GRDH" := by
    unfold typenOf
    rw [pySlice_append _ _ _ _ (by decide)]
    decide
  have hdat : datenRawOf ("S1A_IW_GRDH_1SDV_20200615T" ++ rest) = "20200615" := by
    unfold datenRawOf
    rw [pySlice_append _ _ _ _ (by decide)]
    decide
  have hdoy : acquisitionDayOfYear ("S1A_IW_GRDH_1SDV_20200615T" ++ rest) = some "2020167" := by
    unfold acquisitionDayOfYear
    rw [hdat]
    decide
  refine ⟨hsat, htyp, hdoy, ?_, ?_⟩
  · rw [terrainPath_eq, hsat, htyp]
    congr 1
  · rw [terrainPath_eq, hsat, htyp]
    congr 1

/-- Witness for C2 at the basename `S1A_IW_GRDH_1SDV_20200615T120000`. -/
theorem identity_of_S1A_20200615_witness :
    satOf "S1A_IW_GRDH_1SDV_20200615T120000" = "S1A" ∧
    typenOf "S1A_IW_GRDH_1SDV_20200615T120000" = "GRDH" ∧
    acquisitionDayOfYear "S1A_IW_GRDH_1SDV_20200615T120000" = some "2020167" ∧
    terrainPath "/out" (satOf "S1A_IW_GRDH_1SDV_20200615T120000")
        (typenOf "S1A_IW_GRDH_1SDV_20200615T120000") "2020167" "VH"
      = "/out" ++ "/S1A_GRDH_2020167_projected_Amplitude_VH" ∧
    terrainPath "/out" (satOf "S1A_IW_GRDH_1SDV_20200615T120000")
        (typenOf "S1A_IW_GRDH_1SDV_20200615T120000") "2020167" "VV"
      = "/out" ++ "/S1A_GRDH_2020167_projected_Amplitude_VV" :=
  identity_of_S1A_20200615 "/out" "S1A_IW_GRDH_1SDV_20200615T120000" ⟨"120000", by decide⟩

/-- C3 counterexample, falsifying the claim on both fronts.  First, with the
manifest present and a non-numeric basename the identity-parse failure does
NOT precede every engine call: the product read (`ProductIO.readProduct`) is
already in the trace when strptime fails.  Second, a wrong-length date
substring is not necessarily a parse failure at all: the seven-digit
`2020110` parses as 2020-01-10 through regex backtracking (CPython retries a
one-digit month when the two-digit match starves the day pattern), and the
run completes, writing both outputs. -/
theorem malformed_date_read_before_parse :
    (run ["RadarCorrection.py", "/snap", "/data/BADNAME", "/out", "/work"]
        (fun _ => true)).2 = Outcome.valueError "" ∧
    Event.readProduct "/data/BADNAME/manifest.safe"
      ∈ (run ["RadarCorrection.py", "/snap", "/data/BADNAME", "/out", "/work"]
          (fun _ => true)).1 ∧
    datenRawOf (osPathBasename "/data/S1A_IW_GRDH_1SDV_2020110") = "2020110" ∧
    strptimeYmd "2020110" = some (2020, 1, 10) ∧
    (run ["RadarCorrection.py", "/snap", "/data/S1A_IW_GRDH_1SDV_2020110", "/out", "/work"]
        (fun _ => true)).2 = Outcome.finished ∧
    writesOf (run ["RadarCorrection.py", "/snap", "/data/S1A_IW_GRDH_1SDV_2020110",
        "/out", "/work"] (fun _ => true)).1 =
      [("/out/S1A_GRDH_2020010_projected_Amplitude_VH", "BEAM-DIMAP"),
       ("/out/S1A_GRDH_2020010_projected_Amplitude_VV", "BEAM-DIMAP")] := by
  decide

/-- C3 (amended): when `manifest.safe` is present but the (ASCII) date
substring fails to parse under strptime — non-numeric substrings fail, while
wrong-length digit substrings of six or seven digits may still parse via
regex backtracking — the run fails with the identity-parse error before any
operator invocation or product write, and no output file is written; the
product-read engine call, however, has already happened. -/
theorem malformed_date_fails_before_operators (x s i o w : String)
    (isFile : String → Bool)
    (_hascii : asciiOnly (datenRawOf (osPathBasename i)))
    (hf : isFile (osPathJoin i "manifest.safe") = true)
    (hp : strptimeYmd (datenRawOf (osPathBasename i)) = none) :
    (run [x, s, i, o, w] isFile).2
        = Outcome.valueError (datenRawOf (osPathBasename i)) ∧
    Event.readProduct (osPathJoin i "manifest.safe") ∈ (run [x, s, i, o, w] isFile).1 ∧
    createsOf (run [x, s, i, o, w] isFile).1 = [] ∧
    writesOf (run [x, s, i, o, w] isFile).1 = [] := by
  rw [run_eq_badDate x s i o w [] isFile hf hp]
  refine ⟨rfl, ?_, ?_, ?_⟩ <;> simp [createsOf, writesOf]

/-- Witness for the amended C3, at the product directory `/data/NODATE`. -/
theorem malformed_date_fails_before_operators_witness :
    (run ["RadarCorrection.py", "/snap", "/data/NODATE", "/out", "/work"]
        (fun _ => true)).2
      = Outcome.valueError (datenRawOf (osPathBasename "/data/NODATE")) ∧
    Event.readProduct (osPathJoin "/data/NODATE" "manifest.safe")
      ∈ (run ["RadarCorrection.py", "/snap", "/data/NODATE", "/out", "/work"] (fun _ => true)).1 ∧
    createsOf (run ["RadarCorrection.py", "/snap", "/data/NODATE", "/out", "/work"]
        (fun _ => true)).1 = [] ∧
    writesOf (run ["RadarCorrection.py", "/snap", "/data/NODATE", "/out", "/work"]
        (fun _ => true)).1 = [] :=
  malformed_date_fails_before_operators "RadarCorrection.py" "/snap" "/data/NODATE" "/out" "/work"
    (fun _ => true) (by decide) rfl (by decide)

/-- C4: with the manifest present and a well-formed date, exactly two product
writes occur, in the fixed order VH then VV, and each operator invocation
carries only its own polarization's sourceBands value. -/
theorem two_outputs_vh_then_vv (x s i o w : String) (isFile : String → Bool)
    (ymd : Nat × Nat × Nat)
    (hf : isFile (osPathJoin i "manifest.safe") = true)
    (hp : strptimeYmd (datenRawOf (osPathBasename i)) = some ymd) :
    writesOf (run [x, s, i, o, w] isFile).1 =
      [(terrainPath o (satOf (osPathBasename i)) (typenOf (osPathBasename i))
          (strftimeYj ymd) "VH", "BEAM-DIMAP"),
       (terrainPath o (satOf (osPathBasename i)) (typenOf (osPathBasename i))
          (strftimeYj ymd) "VV", "BEAM-DIMAP")] ∧
    createsOf (run [x, s, i, o, w] isFile).1 =
      [("Ellipsoid-Correction-GG", correctionParameters "VH"),
       ("Ellipsoid-Correction-GG", correctionParameters "VV")] ∧
    (correctionParameters "VH").filter (fun kv => kv.1 == "sourceBands")
      = [("sourceBands", "Amplitude_VH")] ∧
    (correctionParameters "VV").filter (fun kv => kv.1 == "sourceBands")
      = [("sourceBands", "Amplitude_VV")] := by
  rw [run_eq_found x s i o w [] isFile ymd hf hp]
  refine ⟨?_, ?_, by decide, by decide⟩ <;> simp [writesOf, createsOf, polBody]

/-- Witness for C4 at the product directory `/data/S1A_IW_GRDH_1SDV_20200615T99`. -/
theorem two_outputs_vh_then_vv_witness :
    writesOf (run ["RadarCorrection.py", "/snap", "/data/S1A_IW_GRDH_1SDV_20200615T99",
        "/out", "/work"] (fun _ => true)).1 =
      [(terrainPath "/out" (satOf (osPathBasename "/data/S1A_IW_GRDH_1SDV_20200615T99"))
          (typenOf (osPathBasename "/data/S1A_IW_GRDH_1SDV_20200615T99"))
          (strftimeYj (2020, 6, 15)) "VH", "BEAM-DIMAP"),
       (terrainPath "/out" (satOf (osPathBasename "/data/S1A_IW_GRDH_1SDV_20200615T99"))
          (typenOf (osPathBasename "/data/S1A_IW_GRDH_1SDV_20200615T99"))
          (strftimeYj (2020, 6, 15)) "VV", "BEAM-DIMAP")] ∧
    createsOf (run ["RadarCorrection.py", "/snap", "/data/S1A_IW_GRDH_1SDV_20200615T99",
        "/out", "/work"] (fun _ => true)).1 =
      [("Ellipsoid-Correction-GG", correctionParameters "VH"),
       ("Ellipsoid-Correction-GG", correctionParameters "VV")] ∧
    (correctionParameters "VH").filter (fun kv => kv.1 == "sourceBands")
      = [("sourceBands", "Amplitude_VH")] ∧
    (correctionParameters "VV").filter (fun kv => kv.1 == "sourceBands")
      = [("sourceBands", "Amplitude_VV")] :=
  two_outputs_vh_then_vv "RadarCorrection.py" "/snap" "/data/S1A_IW_GRDH_1SDV_20200615T99"
    "/out" "/work" (fun _ => true) (2020, 6, 15) rfl (by decide)

/-- C5 counterexample: a complete, successful run performs no manual
garbage-reclamation call before terminating — the script imports `gc` but
never invokes it. -/
theorem no_gc_call_in_complete_run :
    (run ["RadarCorrection.py", "/snap", "/data/S1A_IW_GRDH_1SDV_20200615T77", "/out", "/work"]
        (fun _ => true)).2 = Outcome.finished ∧
    Event.gcCollect ∉
      (run ["RadarCorrection.py", "/snap", "/data/S1A_IW_GRDH_1SDV_20200615T77", "/out", "/work"]
        (fun _ => true)).1 := by
  decide

/-- C5 (amended): no run, however it ends, ever performs a manual
garbage-reclamation call; the script merely imports the gc module. -/
theorem no_gc_call_ever (argv : List String) (isFile : String → Bool) :
    Event.gcCollect ∉ (run argv isFile).1 := by
  match argv with
  | [] => simp [run]
  | [a0] => simp [run]
  | [a0, a1] => simp [run]
  | [a0, a1, a2] => simp [run]
  | [a0, a1, a2, a3] => simp [run]
  | a0 :: a1 :: a2 :: a3 :: a4 :: r =>
    by_cases hf : isFile (osPathJoin a2 "manifest.safe") = true
    · rcases hsp : strptimeYmd (datenRawOf (osPathBasename a2)) with _ | ymd
      · rw [run_eq_badDate a0 a1 a2 a3 a4 r isFile hf hsp]
        simp
      · rw [run_eq_found a0 a1 a2 a3 a4 r isFile ymd hf hsp]
        simp [polBody]
    · rw [run_eq_absent a0 a1 a2 a3 a4 r isFile (by simpa using hf)]
      simp

/-- C6: with `manifest.safe` absent, no operator invocation and no product
write ever occurs during the run. -/
theorem manifest_absent_no_engine_ops (x s i o w : String) (isFile : String → Bool)
    (h : isFile (osPathJoin i "manifest.safe") = false) :
    createsOf (run [x, s, i, o, w] isFile).1 = [] ∧
    writesOf (run [x, s, i, o, w] isFile).1 = [] := by
  rw [run_eq_absent x s i o w [] isFile h]
  exact ⟨by simp [createsOf], by simp [writesOf]⟩

/-- Witness for C6 at the product directory `/data/EMPTYDIR`. -/
theorem manifest_absent_no_engine_ops_witness :
    createsOf (run ["RadarCorrection.py", "/snap", "/data/EMPTYDIR", "/out", "/work"]
        (fun _ => false)).1 = [] ∧
    writesOf (run ["RadarCorrection.py", "/snap", "/data/EMPTYDIR", "/out", "/work"]
        (fun _ => false)).1 = [] :=
  manifest_absent_no_engine_ops "RadarCorrection.py" "/snap" "/data/EMPTYDIR" "/out" "/work"
    (fun _ => false) rfl

/-- Fixed-length segments make the concatenated path uniquely decodable. -/
theorem terrainPath_inj (od s1 t1 d1 p1 s2 t2 d2 p2 : String)
    (hs : s1.length = s2.length) (ht : t1.length = t2.length)
    (hd : d1.length = d2.length)
    (h : terrainPath od s1 t1 d1 p1 = terrainPath od s2 t2 d2 p2) :
    s1 = s2 ∧ t1 = t2 ∧ d1 = d2 ∧ p1 = p2 := by
  rw [terrainPath_eq, terrainPath_eq] at h
  have h0 := congrArg String.data h
  simp only [String.data_append] at h0
  have h1 := List.append_cancel_left h0
  have h2 := List.append_cancel_left h1
  obtain ⟨hs1, h3⟩ := List.append_inj h2 hs
  have h4 := List.append_cancel_left h3
  obtain ⟨ht1, h5⟩ := List.append_inj h4 ht
  have h6 := List.append_cancel_left h5
  obtain ⟨hd1, h7⟩ := List.append_inj h6 hd
  have h8 := List.append_cancel_left h7
  exact ⟨String.ext hs1, String.ext ht1, String.ext hd1, String.ext h8⟩

/-- C7: output-path construction is injective over distinct valid
(satelliteCode, productType, acquisitionDayOfYear, polarization) tuples with
the same outputDir: the two constructed paths differ. -/
theorem terrainPath_injective (od s1 t1 d1 p1 s2 t2 d2 p2 : String)
    (hs1 : s1.length = 3) (ht1 : t1.length = 4) (hd1 : d1.length = 7)
    (_hp1 : p1 = "VH" ∨ p1 = "VV")
    (hs2 : s2.length = 3) (ht2 : t2.length = 4) (hd2 : d2.length = 7)
    (_hp2 : p2 = "VH" ∨ p2 = "VV")
    (hne : (s1, t1, d1, p1) ≠ (s2, t2, d2, p2)) :
    terrainPath od s1 t1 d1 p1 ≠ terrainPath od s2 t2 d2 p2 := by
  intro h
  obtain ⟨e1, e2, e3, e4⟩ := terrainPath_inj od s1 t1 d1 p1 s2 t2 d2 p2
    (hs1.trans hs2.symm) (ht1.trans ht2.symm) (hd1.trans hd2.symm) h
  exact hne (by rw [e1, e2, e3, e4])

/-- Witness for C7 at two tuples differing in satellite code. -/
theorem terrainPath_injective_witness :
    terrainPath "/out" "S1A" "GRDH" "2020167" "VH"
      ≠ terrainPath "/out" "S1B" "GRDH" "2020167" "VH" :=
  terrainPath_injective "/out" "S1A" "GRDH" "2020167" "VH" "S1B" "GRDH" "2020167" "VH"
    (by decide) (by decide) (by decide) (Or.inl rfl)
    (by decide) (by decide) (by decide) (Or.inl rfl) (by decide)

/-- C8 counterexample: on a manifest-absent run the console shows only the
four echo lines — no "Manifest not found" line and no "finished" — and on a
found run the script prints three spaces after "Manifest found!", so the
claimed two-space line never appears. -/
theorem console_output_deviates :
    printsOf (run ["RadarCorrection.py", "/snap", "/data/PROD_X", "/out", "/work"]
        (fun _ => false)).1
      = ["Snap Dir: /snap", "Image Dir: /data/PROD_X", "Output Dir: /out",
         "Working Dir: /work"] ∧
    "Manifest found!  S1A_IW_GRDH_1SDV_20200615T55" ∉
      printsOf (run ["RadarCorrection.py", "/snap", "/data/S1A_IW_GRDH_1SDV_20200615T55",
          "/out", "/work"] (fun _ => true)).1 ∧
    "Manifest found!   S1A_IW_GRDH_1SDV_20200615T55" ∈
      printsOf (run ["RadarCorrection.py", "/snap", "/data/S1A_IW_GRDH_1SDV_20200615T55",
          "/out", "/work"] (fun _ => true)).1 := by
  decide

/-- C8 (amended): over ASCII basenames, every run with the four arguments
falls in one of three console shapes.  The output always starts with the four
labeled path echoes in argument order; if the manifest is found and the date
substring parses under strptime semantics (including backtracking), it
continues with "Manifest found!   <basename>" (three spaces) and ends with
"finished"; if the manifest is found but the date does not parse, the found
line is printed and the run then dies in strptime, without "finished"; with
the manifest absent the run aborts right after the echoes with a NameError,
printing neither a manifest diagnostic nor "finished". -/
theorem console_output_shape (x s i o w : String) (isFile : String → Bool) :
    (isFile (osPathJoin i "manifest.safe") = false →
      printsOf (run [x, s, i, o, w] isFile).1 =
        ["Snap Dir: " ++ s, "Image Dir: " ++ i, "Output Dir: " ++ o,
         "Working Dir: " ++ w] ∧
      (run [x, s, i, o, w] isFile).2 = Outcome.nameError "filename") ∧
    (∀ ymd : Nat × Nat × Nat, isFile (osPathJoin i "manifest.safe") = true →
      strptimeYmd (datenRawOf (osPathBasename i)) = some ymd →
      printsOf (run [x, s, i, o, w] isFile).1 =
        ["Snap Dir: " ++ s, "Image Dir: " ++ i, "Output Dir: " ++ o, "Working Dir: " ++ w,
         "Manifest found!   " ++ osPathBasename i, "finished"] ∧
      (run [x, s, i, o, w] isFile).2 = Outcome.finished) ∧
    (asciiOnly (datenRawOf (osPathBasename i)) →
      isFile (osPathJoin i "manifest.safe") = true →
      strptimeYmd (datenRawOf (osPathBasename i)) = none →
      printsOf (run [x, s, i, o, w] isFile).1 =
        ["Snap Dir: " ++ s, "Image Dir: " ++ i, "Output Dir: " ++ o, "Working Dir: " ++ w,
         "Manifest found!   " ++ osPathBasename i] ∧
      (run [x, s, i, o, w] isFile).2
        = Outcome.valueError (datenRawOf (osPathBasename i))) := by
  refine ⟨?_, ?_, ?_⟩
  · intro h
    rw [run_eq_absent x s i o w [] isFile h]
    exact ⟨by simp [printsOf], rfl⟩
  · intro ymd hf hp
    rw [run_eq_found x s i o w [] isFile ymd hf hp]
    exact ⟨by simp [printsOf, polBody], rfl⟩
  · intro _ hf hp
    rw [run_eq_badDate x s i o w [] isFile hf hp]
    exact ⟨by simp [printsOf], rfl⟩

/-- Witness for the amended C8: an absent-manifest run, a found run with a
parseable date, and a found run whose date substring fails to parse. -/
theorem console_output_shape_witness :
    (printsOf (run ["RadarCorrection.py", "/snap", "/data/GONE", "/out", "/work"]
        (fun _ => false)).1 =
      ["Snap Dir: " ++ "/snap", "Image Dir: " ++ "/data/GONE", "Output Dir: " ++ "/out",
       "Working Dir: " ++ "/work"] ∧
     (run ["RadarCorrection.py", "/snap", "/data/GONE", "/out", "/work"]
        (fun _ => false)).2 = Outcome.nameError "filename") ∧
    (printsOf (run ["RadarCorrection.py", "/snap", "/data/S1A_IW_GRDH_1SDV_20200615T33",
        "/out", "/work"] (fun _ => true)).1 =
      ["Snap Dir: " ++ "/snap", "Image Dir: " ++ "/data/S1A_IW_GRDH_1SDV_20200615T33",
       "Output Dir: " ++ "/out", "Working Dir: " ++ "/work",
       "Manifest found!   " ++ osPathBasename "/data/S1A_IW_GRDH_1SDV_20200615T33",
       "finished"] ∧
     (run ["RadarCorrection.py", "/snap", "/data/S1A_IW_GRDH_1SDV_20200615T33",
        "/out", "/work"] (fun _ => true)).2 = Outcome.finished) ∧
    (printsOf (run ["RadarCorrection.py", "/snap", "/data/NOPE", "/out", "/work"]
        (fun _ => true)).1 =
      ["Snap Dir: " ++ "/snap", "Image Dir: " ++ "/data/NOPE", "Output Dir: " ++ "/out",
       "Working Dir: " ++ "/work", "Manifest found!   " ++ osPathBasename "/data/NOPE"] ∧
     (run ["RadarCorrection.py", "/snap", "/data/NOPE", "/out", "/work"]
        (fun _ => true)).2 = Outcome.valueError (datenRawOf (osPathBasename "/data/NOPE"))) :=
  ⟨(console_output_shape "RadarCorrection.py" "/snap" "/data/GONE" "/out" "/work"
      (fun _ => false)).1 rfl,
   (console_output_shape "RadarCorrection.py" "/snap" "/data/S1A_IW_GRDH_1SDV_20200615T33"
      "/out" "/work" (fun _ => true)).2.1 (2020, 6, 15) rfl (by decide),
   (console_output_shape "RadarCorrection.py" "/snap" "/data/NOPE" "/out" "/work"
      (fun _ => true)).2.2 (by decide) rfl (by decide)⟩

/-- C9: with fewer than four command-line arguments the run dies at argument
extraction with an IndexError; the engine install path is never appended to
the module search path, the bindings are never imported, and no engine call
of any kind occurs. -/
theorem few_args_dies_before_engine (argv : List String) (isFile : String → Bool)
    (h : argv.length < 5) :
    (∃ n, (run argv isFile).2 = Outcome.indexError n) ∧
    (∀ p, Event.sysPathAppend p ∉ (run argv isFile).1) ∧
    Event.importEngine ∉ (run argv isFile).1 ∧
    (∀ p, Event.readProduct p ∉ (run argv isFile).1) ∧
    createsOf (run argv isFile).1 = [] ∧
    writesOf (run argv isFile).1 = [] := by
  match argv with
  | [] =>
    exact ⟨⟨1, rfl⟩, fun p => by simp [run], by simp [run], fun p => by simp [run], rfl, rfl⟩
  | [a0] =>
    exact ⟨⟨1, rfl⟩, fun p => by simp [run], by simp [run], fun p => by simp [run], rfl, rfl⟩
  | [a0, a1] =>
    exact ⟨⟨2, rfl⟩, fun p => by simp [run], by simp [run], fun p => by simp [run], rfl, rfl⟩
  | [a0, a1, a2] =>
    exact ⟨⟨3, rfl⟩, fun p => by simp [run], by simp [run], fun p => by simp [run], rfl, rfl⟩
  | [a0, a1, a2, a3] =>
    exact ⟨⟨4, rfl⟩, fun p => by simp [run], by simp [run], fun p => by simp [run], rfl, rfl⟩
  | a0 :: a1 :: a2 :: a3 :: a4 :: r =>
    simp only [List.length_cons] at h
    omega

/-- Witness for C9 at an invocation with no arguments beyond the script name. -/
theorem few_args_dies_before_engine_witness :
    (∃ n, (run ["RadarCorrection.py"] (fun _ => true)).2 = Outcome.indexError n) ∧
    (∀ p, Event.sysPathAppend p ∉ (run ["RadarCorrection.py"] (fun _ => true)).1) ∧
    Event.importEngine ∉ (run ["RadarCorrection.py"] (fun _ => true)).1 ∧
    (∀ p, Event.readProduct p ∉ (run ["RadarCorrection.py"] (fun _ => true)).1) ∧
    createsOf (run ["RadarCorrection.py"] (fun _ => true)).1 = [] ∧
    writesOf (run ["RadarCorrection.py"] (fun _ => true)).1 = [] :=
  few_args_dies_before_engine ["RadarCorrection.py"] (fun _ => true) (by decide)

/-- C10: for a basename shorter than the 25 characters the convention needs,
the three range extractions only clamp (shortened or empty results, never an
out-of-range error), and such a run fails, if at all, only at date parsing,
which happens after the product-read engine call. -/
theorem short_basename_clamps_and_parses_late (x s i o w : String)
    (isFile : String → Bool)
    (hlen : (osPathBasename i).length < 25)
    (hf : isFile (osPathJoin i "manifest.safe") = true) :
    (satOf (osPathBasename i)).length = min 3 (osPathBasename i).length ∧
    (typenOf (osPathBasename i)).length = min 4 ((osPathBasename i).length - 7) ∧
    (datenRawOf (osPathBasename i)).length = min 8 ((osPathBasename i).length - 17) ∧
    (datenRawOf (osPathBasename i)).length < 8 ∧
    Event.readProduct (osPathJoin i "manifest.safe") ∈ (run [x, s, i, o, w] isFile).1 ∧
    ((run [x, s, i, o, w] isFile).2 = Outcome.finished ∨
      ((run [x, s, i, o, w] isFile).2
          = Outcome.valueError (datenRawOf (osPathBasename i)) ∧
        createsOf (run [x, s, i, o, w] isFile).1 = [] ∧
        writesOf (run [x, s, i, o, w] isFile).1 = [])) := by
  have l1 : (satOf (osPathBasename i)).length = min 3 (osPathBasename i).length := by
    simpa using pySlice_length (osPathBasename i) 0 3
  have l2 : (typenOf (osPathBasename i)).length = min 4 ((osPathBasename i).length - 7) := by
    simpa using pySlice_length (osPathBasename i) 7 11
  have l3 : (datenRawOf (osPathBasename i)).length = min 8 ((osPathBasename i).length - 17) := by
    simpa using pySlice_length (osPathBasename i) 17 25
  have l4 : (datenRawOf (osPathBasename i)).length < 8 := by
    rw [l3]; omega
  rcases hsp : strptimeYmd (datenRawOf (osPathBasename i)) with _ | ymd
  · rw [run_eq_badDate x s i o w [] isFile hf hsp]
    exact ⟨l1, l2, l3, l4, by simp, Or.inr ⟨rfl, by simp [createsOf], by simp [writesOf]⟩⟩
  · rw [run_eq_found x s i o w [] isFile ymd hf hsp]
    exact ⟨l1, l2, l3, l4, by simp, Or.inl rfl⟩

/-- Witness for C10 at the product directory `/data/SHORT` (basename 5 chars). -/
theorem short_basename_clamps_and_parses_late_witness :
    (satOf (osPathBasename "/data/SHORT")).length
        = min 3 (osPathBasename "/data/SHORT").length ∧
    (typenOf (osPathBasename "/data/SHORT")).length
        = min 4 ((osPathBasename "/data/SHORT").length - 7) ∧
    (datenRawOf (osPathBasename "/data/SHORT")).length
        = min 8 ((osPathBasename "/data/SHORT").length - 17) ∧
    (datenRawOf (osPathBasename "/data/SHORT")).length < 8 ∧
    Event.readProduct (osPathJoin "/data/SHORT" "manifest.safe")
      ∈ (run ["RadarCorrection.py", "/snap", "/data/SHORT", "/out", "/work"]
          (fun _ => true)).1 ∧
    ((run ["RadarCorrection.py", "/snap", "/data/SHORT", "/out", "/work"]
        (fun _ => true)).2 = Outcome.finished ∨
      ((run ["RadarCorrection.py", "/snap", "/data/SHORT", "/out", "/work"]
          (fun _ => true)).2
          = Outcome.valueError (datenRawOf (osPathBasename "/data/SHORT")) ∧
        createsOf (run ["RadarCorrection.py", "/snap", "/data/SHORT", "/out", "/work"]
            (fun _ => true)).1 = [] ∧
        writesOf (run ["RadarCorrection.py", "/snap", "/data/SHORT", "/out", "/work"]
            (fun _ => true)).1 = [])) :=
  short_basename_clamps_and_parses_late "RadarCorrection.py" "/snap" "/data/SHORT"
    "/out" "/work" (fun _ => true) (by decide) rfl

end RadarCorrection


